import Mathlib

/-!
Verification of the `SubscriptionManager` class of the graphql-toolkit
repository (`src/implementations/PerformanceMonitor.ts`).

The class keeps three string-keyed maps — `subscriptions : Map<string,
resolver>`, `connections : Map<string, ISubscriptionConnection>`, and
`subscriptionConnections : Map<string, Set<string>>` (topic → connection
ids) — plus a stats record.  JavaScript `Map`s are embedded as association
lists with unique keys (insertion order preserved, `set` overwrites in
place), `Set`s as duplicate-free lists (insertion order, `add` appends when
absent, `delete` filters).  JS numbers used as counters are embedded as
`Int` (they may be decremented), `errorRate` / memory figures as `Rat`,
timestamps (`Date.now()`, `Date.getTime()`) as `Nat` milliseconds passed in
explicitly.  The stored resolver value is never inspected by the class, so
the state is parametric in the resolver type `ρ`; likewise payloads are an
uninterpreted parameter `π` (the class only logs them).  A caller-supplied
filter callback may return a boolean or throw, embedded as
`π → SubConnection → Except String Bool`.  Async methods contain no
interleaving points relevant to state (each `publishToConnection` body runs
synchronously before the next loop iteration), so every method is a pure
state-passing function.
-/

namespace SubscriptionSpec

/-- Lookup in an association list embedding a JS `Map` (`Map.get`). -/
def alookup {α : Type} : List (String × α) → String → Option α
  | [], _ => none
  | (k, v) :: rest, key => if k = key then some v else alookup rest key

/-- Embeds `Map.set`: overwrite in place when the key is present, else append. -/
def aset {α : Type} : List (String × α) → String → α → List (String × α)
  | [], key, v => [(key, v)]
  | (k, w) :: rest, key, v =>
      if k = key then (key, v) :: rest else (k, w) :: aset rest key v

/-- Embeds `Map.delete`: remove the entry with the given key. -/
def aerase {α : Type} : List (String × α) → String → List (String × α)
  | [], _ => []
  | (k, v) :: rest, key =>
      if k = key then aerase rest key else (k, v) :: aerase rest key

/-- Embeds `Set.add`: append when absent (JS sets keep insertion order). -/
def insS (l : List String) (x : String) : List String :=
  if x ∈ l then l else l ++ [x]

/-- Embeds `Set.delete`: remove the element. -/
def delS (l : List String) (x : String) : List String :=
  l.filter (fun y => y ≠ x)

/-- Record type `ISubscriptionConnection` (src/interfaces/ISubscriptionManager.ts). -/
structure SubConnection where
  id : String
  userId : Option String
  startTime : Nat
  lastActivity : Nat
  subscriptions : List String
  metadata : List (String × String)
  isActive : Bool
deriving DecidableEq

/-- Record type `ISubscriptionStats`. -/
structure SubStats where
  activeConnections : Int
  totalSubscriptions : Int
  messagesSent : Int
  messagesReceived : Int
  averageConnectionDuration : Rat
  peakConnections : Int
  errorRate : Rat
  uptime : Nat
deriving DecidableEq

/-- Record type `ISubscriptionHealth`. -/
structure SubHealth where
  healthy : Bool
  connections : Int
  memoryUsage : Rat
  latency : Nat
  errors : List String
  warnings : List String
deriving DecidableEq

/-- The mutable fields of a `SubscriptionManager` instance. -/
structure SubState (ρ : Type) where
  subscriptions : List (String × ρ)
  connections : List (String × SubConnection)
  subscriptionConnections : List (String × List String)
  stats : SubStats
deriving DecidableEq

/-- The field initializer of `stats` (uptime is `Date.now()` at construction). -/
def initStats (uptime : Nat) : SubStats :=
  { activeConnections := 0, totalSubscriptions := 0, messagesSent := 0,
    messagesReceived := 0, averageConnectionDuration := 0,
    peakConnections := 0, errorRate := 0, uptime := uptime }

/-- A freshly constructed `SubscriptionManager`. -/
def initState (ρ : Type) (uptime : Nat) : SubState ρ :=
  { subscriptions := [], connections := [], subscriptionConnections := [],
    stats := initStats uptime }

/-- Digit table of `generateId()`: `Math.random().toString(36).substring(2) +
Date.now().toString(36)`.  The random part is an input string, the time an
input `Nat`; `toBase36` below is `Number.toString(36)` on naturals. -/
def digitChar36 (d : Nat) : Char :=
  if d < 10 then Char.ofNat (48 + d) else Char.ofNat (87 + d)

/-- Embeds `Number.toString(36)` for a natural number: base-36 digits, most
significant first, using `0-9a-z`; `0` prints as `"0"`. -/
def toBase36 (n : Nat) : String :=
  if n = 0 then "0" else String.mk (((Nat.digits 36 n).map digitChar36).reverse)

/-- Method `generateId()` as a function of its two environment reads. -/
def generateId (randomPart : String) (now : Nat) : String :=
  randomPart ++ toBase36 now

/-- Method `subscribe(name, resolver)`: store the resolver under a generated id,
lazily create the topic's (empty) set in `subscriptionConnections`, bump
`totalSubscriptions`, return the id.  The generated id is passed in. -/
def subscribe {ρ : Type} (s : SubState ρ) (subscriptionId : String)
    (name : String) (resolver : ρ) : String × SubState ρ :=
  let subs := aset s.subscriptions subscriptionId resolver
  let topics :=
    match alookup s.subscriptionConnections name with
    | some _ => s.subscriptionConnections
    | none => aset s.subscriptionConnections name []
  (subscriptionId,
   { s with subscriptions := subs, subscriptionConnections := topics,
            stats := { s.stats with
                       totalSubscriptions := s.stats.totalSubscriptions + 1 } })

/-- Method `unsubscribe(subscriptionId)`: delete from `subscriptions`; when the
id was present, also delete it from every topic's set and decrement
`totalSubscriptions`; return whether it was present. -/
def unsubscribe {ρ : Type} (s : SubState ρ) (subscriptionId : String) :
    Bool × SubState ρ :=
  match alookup s.subscriptions subscriptionId with
  | none => (false, s)
  | some _ =>
    (true,
     { s with
       subscriptions := aerase s.subscriptions subscriptionId,
       subscriptionConnections :=
         s.subscriptionConnections.map (fun e => (e.1, delS e.2 subscriptionId)),
       stats := { s.stats with
                  totalSubscriptions := s.stats.totalSubscriptions - 1 } })

/-- Method `publishToConnection(connectionId, topic, payload)`: throws (`none`)
when the connection is unknown or inactive, otherwise sets its
`lastActivity` to the current time and changes nothing else. -/
def publishToConnection {ρ : Type} (s : SubState ρ) (connectionId : String)
    (now : Nat) : Option (SubState ρ) :=
  match alookup s.connections connectionId with
  | none => none
  | some conn =>
    if conn.isActive then
      let conn' : SubConnection := { conn with lastActivity := now }
      some { s with connections := aset s.connections connectionId conn' }
    else none

/-- One iteration of the fan-out loop in `publish`: a successful delivery
bumps the success count, a failed one is caught and skipped. -/
def publishStep {ρ : Type} (now : Nat) (acc : Nat × SubState ρ)
    (connectionId : String) : Nat × SubState ρ :=
  match publishToConnection acc.2 connectionId now with
  | some s' => (acc.1 + 1, s')
  | none => acc

/-- Method `publish(topic, payload)`: no (or an empty) subscriber set returns 0
untouched; otherwise deliver to each connection id of the topic's set,
add the success count to `messagesSent`, and return it. -/
def publish {ρ π : Type} (s : SubState ρ) (topic : String) (payload : π)
    (now : Nat) : Nat × SubState ρ :=
  match alookup s.subscriptionConnections topic with
  | none => (0, s)
  | some connectionIds =>
    if connectionIds.isEmpty then (0, s)
    else
      let r := connectionIds.foldl (publishStep now) (0, s)
      (r.1, { r.2 with stats :=
                { r.2.stats with messagesSent := r.2.stats.messagesSent + r.1 } })

/-- One iteration of the loop in `publishToSubscribers`: skip unknown
connections; evaluate the filter under try/catch — a throw (`Except.error`)
or a `false` skips the candidate (logged only); otherwise attempt
delivery as in `publish`. -/
def publishFilteredStep {ρ π : Type} (payload : π)
    (flt : π → SubConnection → Except String Bool) (now : Nat)
    (acc : Nat × SubState ρ) (connectionId : String) : Nat × SubState ρ :=
  match alookup acc.2.connections connectionId with
  | none => acc
  | some conn =>
    match flt payload conn with
    | Except.error _ => acc
    | Except.ok false => acc
    | Except.ok true =>
      match publishToConnection acc.2 connectionId now with
      | some s' => (acc.1 + 1, s')
      | none => acc

/-- Method `publishToSubscribers(topic, payload, filter)`. -/
def publishToSubscribers {ρ π : Type} (s : SubState ρ) (topic : String)
    (payload : π) (flt : π → SubConnection → Except String Bool)
    (now : Nat) : Nat × SubState ρ :=
  match alookup s.subscriptionConnections topic with
  | none => (0, s)
  | some connectionIds =>
    if connectionIds.isEmpty then (0, s)
    else
      let r := connectionIds.foldl (publishFilteredStep payload flt now) (0, s)
      (r.1, { r.2 with stats :=
                { r.2.stats with messagesSent := r.2.stats.messagesSent + r.1 } })

/-- Method `closeConnection(connectionId)`: unknown id returns `false`; otherwise
mark the record inactive, `unsubscribe` every id in its `subscriptions`
set, delete the record, decrement `activeConnections`, return `true`. -/
def closeConnection {ρ : Type} (s : SubState ρ) (connectionId : String) :
    Bool × SubState ρ :=
  match alookup s.connections connectionId with
  | none => (false, s)
  | some conn =>
    let conn' : SubConnection := { conn with isActive := false }
    let s1 : SubState ρ := { s with connections := aset s.connections connectionId conn' }
    let s2 := conn.subscriptions.foldl (fun st sid => (unsubscribe st sid).2) s1
    (true,
     { s2 with connections := aerase s2.connections connectionId,
               stats := { s2.stats with
                          activeConnections := s2.stats.activeConnections - 1 } })

/-- Method `registerConnection(connection)`: insert the record as given, increment
`activeConnections`, update the `peakConnections` high-water mark. -/
def registerConnection {ρ : Type} (s : SubState ρ) (connection : SubConnection) :
    SubState ρ :=
  let active := s.stats.activeConnections + 1
  { s with connections := aset s.connections connection.id connection,
           stats := { s.stats with
                      activeConnections := active,
                      peakConnections := max s.stats.peakConnections active } }

/-- Method `addSubscriptionToConnection(connectionId, subscriptionId, topic)`:
when the connection exists, add the subscription id to its set and the
connection id to the topic's set (creating it when absent). -/
def addSubscriptionToConnection {ρ : Type} (s : SubState ρ)
    (connectionId subscriptionId topic : String) : SubState ρ :=
  match alookup s.connections connectionId with
  | none => s
  | some conn =>
    let conn' : SubConnection :=
      { conn with subscriptions := insS conn.subscriptions subscriptionId }
    let s1 : SubState ρ := { s with connections := aset s.connections connectionId conn' }
    let topicConnections := (alookup s1.subscriptionConnections topic).getD []
    let topics' := aset s1.subscriptionConnections topic (insS topicConnections connectionId)
    { s1 with subscriptionConnections := topics' }

/-- Number of connections whose `now - lastActivity` exceeds 5 minutes. -/
def staleCount {ρ : Type} (s : SubState ρ) (now : Nat) : Nat :=
  (s.connections.filter
    (fun e => (300000 : Int) < (now : Int) - (e.2.lastActivity : Int))).length

/-- Method `healthCheck()`: stale connections and high memory (above 512 MB) are
warnings; only an error rate above 0.1 produces an error; `healthy` is
`errors.length === 0`; latency is the placeholder 50 ms.  The memory
reading (`process.memoryUsage().heapUsed`, in MB) is an input. -/
def healthCheck {ρ : Type} (s : SubState ρ) (now : Nat) (memoryUsage : Rat) :
    SubHealth :=
  let warningsStale :=
    if 0 < staleCount s now then ["stale connections detected"] else []
  let errors :=
    if s.stats.errorRate > (1 : Rat) / 10 then ["High error rate"] else []
  let warnings :=
    warningsStale ++ (if memoryUsage > 512 then ["High memory usage"] else [])
  { healthy := errors.isEmpty,
    connections := s.stats.activeConnections,
    memoryUsage := memoryUsage,
    latency := 50,
    errors := errors,
    warnings := warnings }

/-- Method `getStats()` returns a copy of the stats record. -/
def getStats {ρ : Type} (s : SubState ρ) : SubStats := s.stats

/-- Inverse of `digitChar36`, used to decode base-36 strings in proofs. -/
def charVal36 (c : Char) : Nat :=
  if 97 ≤ c.toNat then c.toNat - 87 else c.toNat - 48

/-- Decoder for `toBase36` (proof device establishing injectivity). -/
def unBase36 (l : List Char) : Nat :=
  Nat.ofDigits 36 (l.reverse.map charVal36)

/-- Whether a delivery attempt to this connection id would succeed in
state `s`: the connection is known and `isActive`. -/
def deliverable {ρ : Type} (s : SubState ρ) (cid : String) : Bool :=
  match alookup s.connections cid with
  | some conn => conn.isActive
  | none => false

/-- The state produced by a successful delivery: connection `cid`
(currently `conn`) gets `lastActivity := now`; nothing else changes. -/
def touch {ρ : Type} (s : SubState ρ) (cid : String) (conn : SubConnection)
    (now : Nat) : SubState ρ :=
  let conn' : SubConnection := { conn with lastActivity := now }
  { s with connections := aset s.connections cid conn' }

/-- Whether `publishToSubscribers` counts this candidate in state `s`:
the connection is known, the filter returns `true` without throwing, and
the connection is active. -/
def filterDeliverable {ρ π : Type} (payload : π)
    (flt : π → SubConnection → Except String Bool) (s : SubState ρ)
    (cid : String) : Bool :=
  match alookup s.connections cid with
  | none => false
  | some conn =>
    match flt payload conn with
    | Except.ok true => conn.isActive
    | Except.ok false => false
    | Except.error _ => false

/-- A call in a subscribe/unsubscribe call sequence (claim C2 quantifies
over such sequences).  A `sub` op carries the id produced by
`generateId()` for that call. -/
inductive SubOp (ρ : Type) where
  | sub (subscriptionId name : String) (resolver : ρ)
  | unsub (subscriptionId : String)
deriving DecidableEq

/-- Execute one call of a sequence. -/
def applyOp {ρ : Type} (s : SubState ρ) : SubOp ρ → SubState ρ
  | SubOp.sub sid name r => (subscribe s sid name r).2
  | SubOp.unsub sid => (unsubscribe s sid).2

/-- Execute a call sequence. -/
def runOps {ρ : Type} (s : SubState ρ) (ops : List (SubOp ρ)) : SubState ρ :=
  ops.foldl applyOp s

/-- Every `sub` op of the sequence uses an id that is not live at its
call (the intended behaviour of the id generator). -/
def freshRun {ρ : Type} : SubState ρ → List (SubOp ρ) → Bool
  | _, [] => true
  | s, op :: rest =>
    (match op with
     | SubOp.sub sid _ _ => (alookup s.subscriptions sid).isNone
     | SubOp.unsub _ => true) && freshRun (applyOp s op) rest

/-- The intermediate state of `closeConnection` right after
`connection.isActive = false` is assigned, before the cascade. -/
def closePrep {ρ : Type} (s : SubState ρ) (cid : String) (conn : SubConnection) :
    SubState ρ :=
  let conn' : SubConnection := { conn with isActive := false }
  { s with connections := aset s.connections cid conn' }

/-- The state produced by `closeConnection` on a known connection `conn`
at key `cid` (the non-trivial branch of `closeConnection`, written out so
theorems can name the intermediate states). -/
def closeBody {ρ : Type} (s : SubState ρ) (cid : String) (conn : SubConnection) :
    SubState ρ :=
  let s2 := conn.subscriptions.foldl (fun st sid => (unsubscribe st sid).2)
    (closePrep s cid conn)
  { s2 with connections := aerase s2.connections cid,
            stats := { s2.stats with
                       activeConnections := s2.stats.activeConnections - 1 } }

/-- Connection record fixture for concrete test states. -/
def mkConn (i : String) (active : Bool) (subs : List String) : SubConnection :=
  { id := i, userId := none, startTime := 0, lastActivity := 0,
    subscriptions := subs, metadata := [], isActive := active }

/-- State with two active registered connections (spec example
`maxConnections = 2` at capacity). -/
def c1State : SubState Unit :=
  registerConnection (registerConnection (initState Unit 0) (mkConn "A" true []))
    (mkConn "B" true [])

/-- A third connection, submitted while at the example capacity, carrying
`isActive = false` as given by the caller. -/
def c1ConnC : SubConnection := mkConn "C" false []

/-- State with three active subscriber connections on topic `orders`. -/
def c3State : SubState Unit :=
  { subscriptions := [("sA", ()), ("sB", ()), ("sC", ())],
    connections :=
      [("A", mkConn "A" true ["sA"]), ("B", mkConn "B" true ["sB"]),
       ("C", mkConn "C" true ["sC"])],
    subscriptionConnections := [("orders", ["A", "B", "C"])],
    stats := { initStats 0 with totalSubscriptions := 3, activeConnections := 3 } }

/-- State with one active subscriber connection on topic `t`. -/
def c4State : SubState Unit :=
  { subscriptions := [("s1", ())],
    connections := [("A", mkConn "A" true ["s1"])],
    subscriptionConnections := [("t", ["A"])],
    stats := { initStats 0 with totalSubscriptions := 1, activeConnections := 1 } }

/-- State with one connection `c1` owning live subscriptions `s1`, `s2`. -/
def c5State : SubState Unit :=
  { subscriptions := [("s1", ()), ("s2", ())],
    connections := [("c1", mkConn "c1" true ["s1", "s2"])],
    subscriptionConnections := [("t", ["c1"])],
    stats := { initStats 0 with totalSubscriptions := 2, activeConnections := 1 } }

/-- State with connection `c` owning live subscription `s1` on topic `t`. -/
def c6State : SubState Unit :=
  { subscriptions := [("s1", ())],
    connections := [("c", mkConn "c" true ["s1"])],
    subscriptionConnections := [("t", ["c"])],
    stats := { initStats 0 with totalSubscriptions := 1, activeConnections := 1 } }

theorem alookup_aset {α : Type} (l : List (String × α)) (k k' : String) (v : α) :
    alookup (aset l k v) k' = if k = k' then some v else alookup l k' := by
  induction l with
  | nil => simp [aset, alookup]
  | cons p rest ih =>
    obtain ⟨a, w⟩ := p
    by_cases ha : a = k
    · subst ha
      by_cases h' : a = k' <;> simp [aset, alookup, h']
    · by_cases h' : a = k'
      · have hk : ¬k = k' := fun hh => ha (h'.trans hh.symm)
        have hk2 : ¬k' = k := fun hh => hk hh.symm
        simp [aset, alookup, ha, h', hk, hk2]
      · simp [aset, alookup, ha, h', ih]

theorem alookup_aset_self {α : Type} (l : List (String × α)) (k : String) (v : α) :
    alookup (aset l k v) k = some v := by
  simp [alookup_aset]

theorem alookup_aset_ne {α : Type} (l : List (String × α)) (k k' : String) (v : α)
    (h : k' ≠ k) : alookup (aset l k v) k' = alookup l k' := by
  rw [alookup_aset, if_neg (fun hh => h hh.symm)]

theorem alookup_aerase {α : Type} (l : List (String × α)) (k k' : String) :
    alookup (aerase l k) k' = if k = k' then none else alookup l k' := by
  induction l with
  | nil => simp [aerase, alookup]
  | cons p rest ih =>
    obtain ⟨a, w⟩ := p
    by_cases ha : a = k
    · subst ha
      by_cases h' : a = k' <;> simp [aerase, alookup, h', ih]
      subst h'
      rw [ih]
      simp
    · by_cases h' : a = k'
      · have hk : ¬k = k' := fun hh => ha (h'.trans hh.symm)
        have hk2 : ¬k' = k := fun hh => hk hh.symm
        simp [aerase, alookup, ha, h', hk, hk2]
      · simp [aerase, alookup, ha, h', ih]

theorem alookup_aerase_self {α : Type} (l : List (String × α)) (k : String) :
    alookup (aerase l k) k = none := by
  simp [alookup_aerase]

theorem alookup_aerase_ne {α : Type} (l : List (String × α)) (k k' : String)
    (h : k' ≠ k) : alookup (aerase l k) k' = alookup l k' := by
  rw [alookup_aerase, if_neg (fun hh => h hh.symm)]

theorem alookup_eq_none_iff {α : Type} (l : List (String × α)) (k : String) :
    alookup l k = none ↔ k ∉ l.map Prod.fst := by
  induction l with
  | nil => simp [alookup]
  | cons p rest ih =>
    obtain ⟨a, w⟩ := p
    by_cases h : a = k
    · subst h
      simp [alookup]
    · simp [alookup, h, ih, Ne.symm h]

theorem aset_fresh {α : Type} (l : List (String × α)) (k : String) (v : α)
    (h : alookup l k = none) : aset l k v = l ++ [(k, v)] := by
  induction l with
  | nil => simp [aset]
  | cons p rest ih =>
    obtain ⟨a, w⟩ := p
    by_cases ha : a = k
    · simp [alookup, ha] at h
    · simp [alookup, ha] at h
      simp [aset, ha, ih h]

theorem aerase_of_none {α : Type} (l : List (String × α)) (k : String)
    (h : alookup l k = none) : aerase l k = l := by
  induction l with
  | nil => simp [aerase]
  | cons p rest ih =>
    obtain ⟨a, w⟩ := p
    by_cases ha : a = k
    · simp [alookup, ha] at h
    · simp [alookup, ha] at h
      simp [aerase, ha, ih h]

theorem aerase_map_fst {α : Type} (l : List (String × α)) (k : String) :
    (aerase l k).map Prod.fst = (l.map Prod.fst).filter (fun x => x ≠ k) := by
  induction l with
  | nil => simp [aerase]
  | cons p rest ih =>
    obtain ⟨a, w⟩ := p
    by_cases ha : a = k <;> simp [aerase, ha, ih, List.filter_cons]

theorem length_aerase {α : Type} (l : List (String × α)) (k : String) (v : α)
    (hnd : (l.map Prod.fst).Nodup) (h : alookup l k = some v) :
    (aerase l k).length + 1 = l.length := by
  induction l with
  | nil => simp [alookup] at h
  | cons p rest ih =>
    obtain ⟨a, w⟩ := p
    simp only [List.map_cons, List.nodup_cons] at hnd
    by_cases ha : a = k
    · subst ha
      have hnone : alookup rest a = none := (alookup_eq_none_iff rest a).mpr hnd.1
      simp [aerase, aerase_of_none rest a hnone]
    · simp only [alookup, if_neg ha] at h
      simp [aerase, ha, ← ih hnd.2 h]

theorem mem_aset {α : Type} (l : List (String × α)) (k : String) (v : α)
    (e : String × α) (he : e ∈ aset l k v) : e ∈ l ∨ e = (k, v) := by
  induction l with
  | nil => simpa [aset] using he
  | cons p rest ih =>
    obtain ⟨a, w⟩ := p
    by_cases ha : a = k
    · simp only [aset, if_pos ha] at he
      rcases List.mem_cons.mp he with h | h
      · exact Or.inr h
      · exact Or.inl (List.mem_cons_of_mem _ h)
    · simp only [aset, if_neg ha] at he
      rcases List.mem_cons.mp he with h | h
      · exact Or.inl (h ▸ List.mem_cons_self _ _)
      · rcases ih h with h' | h'
        · exact Or.inl (List.mem_cons_of_mem _ h')
        · exact Or.inr h'

theorem not_mem_delS (l : List String) (x : String) : x ∉ delS l x := by
  simp [delS]

theorem mem_of_mem_delS (l : List String) (x y : String) (h : y ∈ delS l x) :
    y ∈ l := (List.mem_filter.mp h).1

theorem unsubscribe_fst {ρ : Type} (s : SubState ρ) (k : String) :
    (unsubscribe s k).1 = (alookup s.subscriptions k).isSome := by
  unfold unsubscribe
  cases alookup s.subscriptions k <;> rfl

theorem unsubscribe_of_none {ρ : Type} (s : SubState ρ) (k : String)
    (h : alookup s.subscriptions k = none) : unsubscribe s k = (false, s) := by
  unfold unsubscribe
  rw [h]

theorem unsubscribe_subscriptions_lookup {ρ : Type} (s : SubState ρ) (k k' : String) :
    alookup (unsubscribe s k).2.subscriptions k' =
      if k' = k then none else alookup s.subscriptions k' := by
  unfold unsubscribe
  cases h : alookup s.subscriptions k with
  | none =>
    by_cases hk : k' = k
    · subst hk
      simpa using h
    · simp [hk]
  | some r =>
    by_cases hk : k' = k
    · subst hk
      simp [alookup_aerase_self]
    · simp [hk, alookup_aerase_ne _ _ _ hk]

theorem unsubscribe_connections {ρ : Type} (s : SubState ρ) (k : String) :
    (unsubscribe s k).2.connections = s.connections := by
  unfold unsubscribe
  cases alookup s.subscriptions k <;> rfl

theorem unsubscribe_sets_absent {ρ : Type} (s : SubState ρ) (k : String) (r : ρ)
    (h : alookup s.subscriptions k = some r) :
    ∀ e ∈ (unsubscribe s k).2.subscriptionConnections, k ∉ e.2 := by
  simp only [unsubscribe, h]
  intro e he
  obtain ⟨e', _, rfl⟩ := List.mem_map.mp he
  exact not_mem_delS _ _

theorem unsubscribe_sets_no_new {ρ : Type} (s : SubState ρ) (k x : String)
    (h : ∀ e ∈ s.subscriptionConnections, x ∉ e.2) :
    ∀ e ∈ (unsubscribe s k).2.subscriptionConnections, x ∉ e.2 := by
  unfold unsubscribe
  cases hh : alookup s.subscriptions k with
  | none => simpa using h
  | some r =>
    intro e he
    simp only [] at he
    obtain ⟨e', he', rfl⟩ := List.mem_map.mp he
    exact fun hx => h e' he' (mem_of_mem_delS _ _ _ hx)

theorem unsubscribe_sets_map_fst {ρ : Type} (s : SubState ρ) (k : String) :
    (unsubscribe s k).2.subscriptionConnections.map Prod.fst =
      s.subscriptionConnections.map Prod.fst := by
  unfold unsubscribe
  cases alookup s.subscriptions k with
  | none => rfl
  | some r => simp [List.map_map, Function.comp]

/-- C1 (amended): `registerConnection` enforces no capacity limit and never
fails: whatever the current number of active connections, it inserts the
given record as-is (it does not set `isActive`), increments the
`activeConnections` gauge, and bumps the `peakConnections` high-water mark;
subscriptions and the topic index are untouched. -/
theorem c1_register_never_rejects {ρ : Type} (s : SubState ρ) (c : SubConnection) :
    alookup (registerConnection s c).connections c.id = some c ∧
    (registerConnection s c).stats.activeConnections = s.stats.activeConnections + 1 ∧
    (registerConnection s c).stats.peakConnections =
      max s.stats.peakConnections (s.stats.activeConnections + 1) ∧
    (registerConnection s c).subscriptions = s.subscriptions ∧
    (registerConnection s c).subscriptionConnections = s.subscriptionConnections :=
  ⟨alookup_aset_self _ _ _, rfl, rfl, rfl, rfl⟩

/-- C1 counterexample: with two active connections already registered (the
spec example capacity `maxConnections = 2`), a further `registerConnection`
call is not rejected: the third record is inserted, `activeConnections`
rises to 3, and the record's `isActive` flag is stored as given (`false`),
not set to `true`. -/
theorem c1_counterexample :
    c1State.stats.activeConnections = 2 ∧
    (registerConnection c1State c1ConnC).stats.activeConnections = 3 ∧
    alookup (registerConnection c1State c1ConnC).connections "C" = some c1ConnC ∧
    c1ConnC.isActive = false := by
  decide

/-- C7: publishing to a topic with no subscriber set, or with an empty
subscriber set, returns 0 and leaves the entire state (every stats
counter and gauge, every connection record, every subscription record)
unchanged. -/
theorem c7_publish_zero_subscribers {ρ π : Type} (s : SubState ρ) (topic : String)
    (p : π) (now : Nat)
    (h : alookup s.subscriptionConnections topic = none ∨
         alookup s.subscriptionConnections topic = some []) :
    publish s topic p now = (0, s) := by
  rcases h with h | h <;> simp [publish, h]

theorem c7_witness :
    (alookup (initState Unit 0).subscriptionConnections "orders" = none ∧
     publish (initState Unit 0) "orders" (0 : Nat) 5 = (0, initState Unit 0)) :=
  ⟨rfl, c7_publish_zero_subscribers _ _ _ _ (Or.inl rfl)⟩

/-- C8 (amended): `healthCheck` reports `healthy = false` exactly when the
error-rate gauge exceeds the 10% threshold; high memory usage (above
512 MB) and stale connections only produce warnings and never make the
report unhealthy. -/
theorem c8_healthy_iff_error_rate {ρ : Type} (s : SubState ρ) (now : Nat) (mem : Rat) :
    ((healthCheck s now mem).healthy = true ↔ s.stats.errorRate ≤ 1 / 10) := by
  unfold healthCheck
  by_cases h : s.stats.errorRate > (1 : Rat) / 10
  · simp [h, not_le.mpr h]
  · simp [h, not_lt.mp h]

/-- C8 counterexample: a state with error rate 0 and a memory reading of
600 MB (above the 512 MB threshold, as witnessed by the warning) is still
reported `healthy = true`, contradicting the claim that `healthy` is false
whenever memory usage is above its threshold. -/
theorem c8_counterexample :
    (healthCheck (initState Unit 0) 0 600).healthy = true ∧
    (healthCheck (initState Unit 0) 0 600).warnings = ["High memory usage"] ∧
    (512 : Rat) < 600 := by
  have h1 : ¬((initState Unit 0).stats.errorRate > (1 : Rat) / 10) := by
    norm_num [initState, initStats]
  have h2 : (600 : Rat) > 512 := by norm_num
  have h3 : staleCount (initState Unit 0) 0 = 0 := rfl
  refine ⟨?_, ?_, by norm_num⟩ <;>
    simp [healthCheck, h1, h2, h3, initState, initStats, staleCount]

/-- C6 (amended): `unsubscribe` is idempotent and never throws: it returns
true exactly when the id names a live subscription — removing it from the
subscription table and from every topic's subscriber set — and false when
the id is unknown (leaving the state untouched); two consecutive calls on
a live id return true then false.  However, a topic's set is retained even
when it becomes empty (the topic keys are unchanged), and no connection
record — in particular no `subscriptions` set of a connection — is
modified. -/
theorem c6_unsubscribe_idempotent :
    (∀ (ρ : Type) (s : SubState ρ) (sid : String),
        (unsubscribe s sid).1 = (alookup s.subscriptions sid).isSome) ∧
    (∀ (ρ : Type) (s : SubState ρ) (sid : String),
        alookup s.subscriptions sid = none → unsubscribe s sid = (false, s)) ∧
    (∀ (ρ : Type) (s : SubState ρ) (sid : String) (r : ρ),
        alookup s.subscriptions sid = some r →
        (unsubscribe s sid).1 = true ∧
        alookup (unsubscribe s sid).2.subscriptions sid = none ∧
        (∀ e ∈ (unsubscribe s sid).2.subscriptionConnections, sid ∉ e.2) ∧
        (unsubscribe s sid).2.subscriptionConnections.map Prod.fst =
          s.subscriptionConnections.map Prod.fst ∧
        (unsubscribe s sid).2.connections = s.connections ∧
        (unsubscribe (unsubscribe s sid).2 sid).1 = false) := by
  refine ⟨fun ρ s sid => unsubscribe_fst s sid,
          fun ρ s sid h => unsubscribe_of_none s sid h,
          fun ρ s sid r h => ?_⟩
  have hlive : (alookup s.subscriptions sid).isSome := by simp [h]
  have hafter : alookup (unsubscribe s sid).2.subscriptions sid = none := by
    rw [unsubscribe_subscriptions_lookup, if_pos rfl]
  refine ⟨by rw [unsubscribe_fst, hlive],
          hafter,
          unsubscribe_sets_absent s sid r h,
          unsubscribe_sets_map_fst s sid,
          unsubscribe_connections s sid,
          by rw [unsubscribe_fst, hafter] ; rfl⟩

theorem c6_witness :
    ((unsubscribe c6State "s1").1 = true ∧
     alookup (unsubscribe c6State "s1").2.subscriptions "s1" = none ∧
     (unsubscribe (unsubscribe c6State "s1").2 "s1").1 = false) :=
  ⟨(c6_unsubscribe_idempotent.2.2 Unit c6State "s1" () rfl).1,
   (c6_unsubscribe_idempotent.2.2 Unit c6State "s1" () rfl).2.1,
   (c6_unsubscribe_idempotent.2.2 Unit c6State "s1" () rfl).2.2.2.2.2⟩

/-- C6 counterexample: `unsubscribe` does not remove the id from the
owning connection's `subscriptions` set: after a successful
`unsubscribe "s1"`, connection `c` still holds `s1` in its set, contrary
to the claim that the id is removed from the owning connection's
`subscriptionIds`. -/
theorem c6_counterexample :
    (unsubscribe c6State "s1").1 = true ∧
    alookup (unsubscribe c6State "s1").2.connections "c" =
      some (mkConn "c" true ["s1"]) ∧
    "s1" ∈ (mkConn "c" true ["s1"]).subscriptions := by
  decide

theorem publishToConnection_some {ρ : Type} (s : SubState ρ) (cid : String)
    (now : Nat) (conn : SubConnection) (hc : alookup s.connections cid = some conn)
    (ha : conn.isActive = true) :
    publishToConnection s cid now = some (touch s cid conn now) := by
  simp only [publishToConnection, hc, ha, touch, if_true]

theorem publishToConnection_none {ρ : Type} (s : SubState ρ) (cid : String)
    (now : Nat) (h : deliverable s cid = false) :
    publishToConnection s cid now = none := by
  unfold deliverable at h
  unfold publishToConnection
  cases hc : alookup s.connections cid with
  | none => simp
  | some conn =>
    simp [hc] at h
    simp [h]

theorem deliverable_eq_true {ρ : Type} (s : SubState ρ) (cid : String)
    (h : deliverable s cid = true) :
    ∃ conn, alookup s.connections cid = some conn ∧ conn.isActive = true := by
  unfold deliverable at h
  cases hc : alookup s.connections cid with
  | none => simp [hc] at h
  | some conn =>
    simp [hc] at h
    exact ⟨conn, rfl, h⟩

theorem deliverable_touch {ρ : Type} (s : SubState ρ) (cid : String)
    (conn : SubConnection) (now : Nat) (hc : alookup s.connections cid = some conn)
    (cid' : String) : deliverable (touch s cid conn now) cid' = deliverable s cid' := by
  unfold deliverable touch
  by_cases he : cid' = cid
  · subst he
    simp [alookup_aset_self, hc]
  · simp [alookup_aset_ne _ _ _ _ he]

theorem deliverable_publishStep {ρ : Type} (now : Nat) (acc : Nat × SubState ρ)
    (cid cid' : String) :
    deliverable (publishStep now acc cid).2 cid' = deliverable acc.2 cid' := by
  unfold publishStep
  cases hd : deliverable acc.2 cid with
  | false => rw [publishToConnection_none acc.2 cid now hd]
  | true =>
    obtain ⟨conn, hc, ha⟩ := deliverable_eq_true acc.2 cid hd
    rw [publishToConnection_some acc.2 cid now conn hc ha]
    exact deliverable_touch acc.2 cid conn now hc cid'

theorem foldl_publishStep_count {ρ : Type} (now : Nat) :
    ∀ (cids : List String) (n : Nat) (s : SubState ρ),
      (cids.foldl (publishStep now) (n, s)).1 =
        n + cids.countP (fun cid => deliverable s cid) := by
  intro cids
  induction cids with
  | nil => intro n s; simp
  | cons c rest ih =>
    intro n s
    rw [List.foldl_cons, List.countP_cons]
    cases hd : deliverable s c with
    | false =>
      have hstep : publishStep now (n, s) c = (n, s) := by
        unfold publishStep
        rw [publishToConnection_none s c now hd]
      rw [hstep, ih n s]
      simp [hd]
    | true =>
      obtain ⟨conn, hc, ha⟩ := deliverable_eq_true s c hd
      have hstep : publishStep now (n, s) c = (n + 1, touch s c conn now) := by
        unfold publishStep
        rw [publishToConnection_some s c now conn hc ha]
      rw [hstep, ih]
      have hpres : rest.countP (fun cid => deliverable (touch s c conn now) cid) =
          rest.countP (fun cid => deliverable s cid) := by
        apply List.countP_congr
        intro a _
        rw [deliverable_touch s c conn now hc a]
      rw [hpres]
      simp [hd]
      omega

/-- C3: the count returned by `publish(topic, payload)` equals the number
of connection ids in the topic's subscriber set for which delivery
succeeds, i.e. that name a known connection with `isActive = true` (in a
state with three such subscribers on topic `orders` the call returns 3 —
see the witness). -/
theorem c3_publish_delivered_count {ρ π : Type} (s : SubState ρ) (topic : String)
    (p : π) (now : Nat) (cids : List String)
    (h : alookup s.subscriptionConnections topic = some cids) :
    (publish s topic p now).1 = cids.countP (fun cid => deliverable s cid) := by
  by_cases he : cids.isEmpty = true
  · have hnil : cids = [] := List.isEmpty_iff.mp he
    subst hnil
    simp [publish, h]
  · simp only [publish, h, if_neg he]
    rw [foldl_publishStep_count]
    simp

theorem c3_witness :
    (alookup c3State.subscriptionConnections "orders" = some ["A", "B", "C"] ∧
     (publish c3State "orders" (0 : Nat) 7).1 = 3) := by
  refine ⟨rfl, ?_⟩
  rw [c3_publish_delivered_count c3State "orders" (0 : Nat) 7 ["A", "B", "C"] rfl]
  decide

/-- C10: a successful delivery to a connection rewrites exactly that
connection's record, changing only its `lastActivity` to the delivery
time (the rest of the state — subscriptions, topic index, stats, and
every other connection — is unchanged); a delivery attempt on an unknown
or inactive connection id fails (`none`), leaves the state untouched, and
is not counted by the fan-out step of `publish`. -/
theorem c10_delivery_touches_only_last_activity :
    (∀ (ρ : Type) (s : SubState ρ) (cid : String) (now : Nat) (conn : SubConnection),
        alookup s.connections cid = some conn → conn.isActive = true →
        publishToConnection s cid now = some (touch s cid conn now) ∧
        (touch s cid conn now).subscriptions = s.subscriptions ∧
        (touch s cid conn now).subscriptionConnections = s.subscriptionConnections ∧
        (touch s cid conn now).stats = s.stats ∧
        alookup (touch s cid conn now).connections cid =
          some { conn with lastActivity := now } ∧
        (∀ cid', cid' ≠ cid →
          alookup (touch s cid conn now).connections cid' =
            alookup s.connections cid')) ∧
    (∀ (ρ : Type) (s : SubState ρ) (cid : String) (now : Nat),
        deliverable s cid = false →
        publishToConnection s cid now = none ∧
        ∀ n, publishStep now (n, s) cid = (n, s)) := by
  constructor
  · intro ρ s cid now conn hc ha
    refine ⟨publishToConnection_some s cid now conn hc ha, rfl, rfl, rfl,
            alookup_aset_self _ _ _, ?_⟩
    intro cid' hne
    exact alookup_aset_ne _ _ _ _ hne
  · intro ρ s cid now hd
    refine ⟨publishToConnection_none s cid now hd, ?_⟩
    intro n
    unfold publishStep
    rw [publishToConnection_none s cid now hd]

theorem c10_witness :
    (publishToConnection c3State "A" 42 =
       some (touch c3State "A" (mkConn "A" true ["sA"]) 42) ∧
     publishStep 42 (5, c4State) "Z" = (5, c4State)) :=
  ⟨(c10_delivery_touches_only_last_activity.1 Unit c3State "A" 42
      (mkConn "A" true ["sA"]) rfl rfl).1,
   (c10_delivery_touches_only_last_activity.2 Unit c4State "Z" 42 (by decide)).2 5⟩

theorem publishToConnection_frame {ρ : Type} (s s' : SubState ρ) (cid : String)
    (now : Nat) (h : publishToConnection s cid now = some s') :
    s'.stats = s.stats ∧ s'.subscriptions = s.subscriptions ∧
    s'.subscriptionConnections = s.subscriptionConnections := by
  unfold publishToConnection at h
  cases hc : alookup s.connections cid with
  | none => simp [hc] at h
  | some conn =>
    by_cases ha : conn.isActive = true
    · simp only [hc, ha, if_true] at h
      cases h
      exact ⟨rfl, rfl, rfl⟩
    · simp [hc, ha] at h

theorem publishFilteredStep_frame {ρ π : Type} (p : π)
    (flt : π → SubConnection → Except String Bool) (now : Nat)
    (acc : Nat × SubState ρ) (cid : String) :
    (publishFilteredStep p flt now acc cid).2.stats = acc.2.stats ∧
    (publishFilteredStep p flt now acc cid).2.subscriptions = acc.2.subscriptions ∧
    (publishFilteredStep p flt now acc cid).2.subscriptionConnections =
      acc.2.subscriptionConnections := by
  cases hc : alookup acc.2.connections cid with
  | none =>
    have hstep : publishFilteredStep p flt now acc cid = acc := by
      unfold publishFilteredStep
      rw [hc]
    rw [hstep]
    exact ⟨rfl, rfl, rfl⟩
  | some conn =>
    cases hf : flt p conn with
    | error e =>
      have hstep : publishFilteredStep p flt now acc cid = acc := by
        unfold publishFilteredStep
        rw [hc]
        simp [hf]
      rw [hstep]
      exact ⟨rfl, rfl, rfl⟩
    | ok b =>
      cases b with
      | false =>
        have hstep : publishFilteredStep p flt now acc cid = acc := by
          unfold publishFilteredStep
          rw [hc]
          simp [hf]
        rw [hstep]
        exact ⟨rfl, rfl, rfl⟩
      | true =>
        cases hp : publishToConnection acc.2 cid now with
        | none =>
          have hstep : publishFilteredStep p flt now acc cid = acc := by
            unfold publishFilteredStep
            rw [hc]
            simp [hf, hp]
          rw [hstep]
          exact ⟨rfl, rfl, rfl⟩
        | some s' =>
          have hstep : publishFilteredStep p flt now acc cid = (acc.1 + 1, s') := by
            unfold publishFilteredStep
            rw [hc]
            simp [hf, hp]
          rw [hstep]
          exact publishToConnection_frame acc.2 s' cid now hp

theorem foldl_filteredStep_frame {ρ π : Type} (p : π)
    (flt : π → SubConnection → Except String Bool) (now : Nat) :
    ∀ (cids : List String) (acc : Nat × SubState ρ),
      (cids.foldl (publishFilteredStep p flt now) acc).2.stats = acc.2.stats ∧
      (cids.foldl (publishFilteredStep p flt now) acc).2.subscriptions =
        acc.2.subscriptions ∧
      (cids.foldl (publishFilteredStep p flt now) acc).2.subscriptionConnections =
        acc.2.subscriptionConnections := by
  intro cids
  induction cids with
  | nil => intro acc; exact ⟨rfl, rfl, rfl⟩
  | cons c rest ih =>
    intro acc
    rw [List.foldl_cons]
    obtain ⟨h1, h2, h3⟩ := ih (publishFilteredStep p flt now acc c)
    obtain ⟨g1, g2, g3⟩ := publishFilteredStep_frame p flt now acc c
    exact ⟨h1.trans g1, h2.trans g2, h3.trans g3⟩

theorem foldl_filteredStep_count {ρ π : Type} (p : π)
    (flt : π → SubConnection → Except String Bool) (now : Nat) :
    ∀ (cids : List String) (n : Nat) (s s₀ : SubState ρ),
      cids.Nodup →
      (∀ cid ∈ cids, alookup s.connections cid = alookup s₀.connections cid) →
      (cids.foldl (publishFilteredStep p flt now) (n, s)).1 =
        n + cids.countP (fun cid => filterDeliverable p flt s₀ cid) := by
  intro cids
  induction cids with
  | nil =>
    intro n s s₀ _ _
    simp
  | cons c rest ih =>
    intro n s s₀ hnd hagree
    rw [List.foldl_cons, List.countP_cons]
    have hc0 : alookup s.connections c = alookup s₀.connections c :=
      hagree c (List.mem_cons_self c rest)
    have hnd' : rest.Nodup := (List.nodup_cons.mp hnd).2
    have hcnot : c ∉ rest := (List.nodup_cons.mp hnd).1
    have hagree' : ∀ cid ∈ rest, alookup s.connections cid = alookup s₀.connections cid :=
      fun cid hm => hagree cid (List.mem_cons_of_mem c hm)
    cases hc : alookup s₀.connections c with
    | none =>
      have hcs : alookup s.connections c = none := hc0.trans hc
      have hstep : publishFilteredStep p flt now (n, s) c = (n, s) := by
        unfold publishFilteredStep
        rw [hcs]
      have hfd : filterDeliverable p flt s₀ c = false := by
        unfold filterDeliverable
        rw [hc]
      rw [hstep, ih n s s₀ hnd' hagree', hfd]
      simp
    | some conn =>
      have hcs : alookup s.connections c = some conn := hc0.trans hc
      cases hf : flt p conn with
      | error e =>
        have hstep : publishFilteredStep p flt now (n, s) c = (n, s) := by
          unfold publishFilteredStep
          rw [hcs]
          simp [hf]
        have hfd : filterDeliverable p flt s₀ c = false := by
          unfold filterDeliverable
          rw [hc]
          simp [hf]
        rw [hstep, ih n s s₀ hnd' hagree', hfd]
        simp
      | ok b =>
        cases b with
        | false =>
          have hstep : publishFilteredStep p flt now (n, s) c = (n, s) := by
            unfold publishFilteredStep
            rw [hcs]
            simp [hf]
          have hfd : filterDeliverable p flt s₀ c = false := by
            unfold filterDeliverable
            rw [hc]
            simp [hf]
          rw [hstep, ih n s s₀ hnd' hagree', hfd]
          simp
        | true =>
          cases ha : conn.isActive with
          | false =>
            have hdel : deliverable s c = false := by
              unfold deliverable
              rw [hcs]
              exact ha
            have hstep : publishFilteredStep p flt now (n, s) c = (n, s) := by
              unfold publishFilteredStep
              rw [hcs]
              simp [hf, publishToConnection_none s c now hdel]
            have hfd : filterDeliverable p flt s₀ c = false := by
              unfold filterDeliverable
              rw [hc]
              simp [hf, ha]
            rw [hstep, ih n s s₀ hnd' hagree', hfd]
            simp
          | true =>
            have hstep : publishFilteredStep p flt now (n, s) c =
                (n + 1, touch s c conn now) := by
              unfold publishFilteredStep
              rw [hcs]
              simp [hf, publishToConnection_some s c now conn hcs ha]
            have hfd : filterDeliverable p flt s₀ c = true := by
              unfold filterDeliverable
              rw [hc]
              simp [hf, ha]
            have hagree2 : ∀ cid ∈ rest,
                alookup (touch s c conn now).connections cid =
                  alookup s₀.connections cid := by
              intro cid hm
              have hne : cid ≠ c := fun hh => hcnot (hh ▸ hm)
              unfold touch
              rw [alookup_aset_ne _ _ _ _ hne]
              exact hagree' cid hm
            rw [hstep, ih (n + 1) (touch s c conn now) s₀ hnd' hagree2, hfd]
            simp
            omega

/-- C4 (amended): the count returned by `publishToSubscribers` equals the
number of candidate connection ids that are known, whose filter evaluates
to `true` without throwing, and whose connection is active; a candidate
whose filter returns false or throws is excluded without affecting the
others.  Filter exceptions are caught — the call always returns a count —
but they are not counted toward any error metric: the `errorRate` gauge
(and every stat except `messagesSent`, which rises by the returned count)
is unchanged, and candidates with no connection record are skipped without
filter evaluation. -/
theorem c4_filtered_publish_isolated :
    (∀ (ρ π : Type) (s : SubState ρ) (topic : String) (p : π)
        (flt : π → SubConnection → Except String Bool) (now : Nat)
        (cids : List String),
        alookup s.subscriptionConnections topic = some cids → cids.Nodup →
        (publishToSubscribers s topic p flt now).1 =
          cids.countP (fun cid => filterDeliverable p flt s cid)) ∧
    (∀ (ρ π : Type) (s : SubState ρ) (topic : String) (p : π)
        (flt : π → SubConnection → Except String Bool) (now : Nat),
        (publishToSubscribers s topic p flt now).2.stats.errorRate =
          s.stats.errorRate ∧
        (publishToSubscribers s topic p flt now).2.stats.messagesSent =
          s.stats.messagesSent + ((publishToSubscribers s topic p flt now).1 : Int) ∧
        (publishToSubscribers s topic p flt now).2.stats.totalSubscriptions =
          s.stats.totalSubscriptions ∧
        (publishToSubscribers s topic p flt now).2.stats.activeConnections =
          s.stats.activeConnections ∧
        (publishToSubscribers s topic p flt now).2.subscriptions =
          s.subscriptions) := by
  constructor
  · intro ρ π s topic p flt now cids h hnd
    by_cases he : cids.isEmpty = true
    · have hnil : cids = [] := List.isEmpty_iff.mp he
      subst hnil
      simp [publishToSubscribers, h]
    · simp only [publishToSubscribers, h, if_neg he]
      rw [foldl_filteredStep_count p flt now cids 0 s s hnd (fun _ _ => rfl)]
      simp
  · intro ρ π s topic p flt now
    cases h : alookup s.subscriptionConnections topic with
    | none =>
      simp [publishToSubscribers, h]
    | some cids =>
      by_cases he : cids.isEmpty = true
      · simp [publishToSubscribers, h, he]
      · simp only [publishToSubscribers, h, if_neg he]
        obtain ⟨h1, h2, _⟩ :=
          foldl_filteredStep_frame p flt now cids (0, s)
        simp [h1, h2]

theorem c4_witness :
    ((publishToSubscribers c4State "t" (0 : Nat)
        (fun _ conn => Except.ok conn.isActive) 3).1 =
      ["A"].countP
        (fun cid => filterDeliverable (0 : Nat)
          (fun _ conn => Except.ok conn.isActive) c4State cid)) :=
  c4_filtered_publish_isolated.1 Unit Nat c4State "t" 0
    (fun _ conn => Except.ok conn.isActive) 3 ["A"] rfl (by decide)

/-- C4 counterexample: a candidate whose caller-supplied filter throws is
excluded (the call returns 0) but the exception is not counted toward any
error metric: the state after the call — its `errorRate` gauge included —
is exactly the state before, contradicting the claim that filter
exceptions are counted toward error metrics. -/
theorem c4_counterexample :
    publishToSubscribers c4State "t" (0 : Nat)
      (fun _ _ => Except.error "filter boom") 9 = (0, c4State) := by
  rfl

theorem unsub_kills {ρ : Type} (s : SubState ρ) (k : String) :
    alookup (unsubscribe s k).2.subscriptions k = none := by
  rw [unsubscribe_subscriptions_lookup, if_pos rfl]

theorem foldUnsub_connections {ρ : Type} :
    ∀ (l : List String) (s : SubState ρ),
      (l.foldl (fun st sid => (unsubscribe st sid).2) s).connections =
        s.connections := by
  intro l
  induction l with
  | nil => intro s; rfl
  | cons c rest ih =>
    intro s
    rw [List.foldl_cons, ih]
    exact unsubscribe_connections s c

theorem foldUnsub_none_preserved {ρ : Type} :
    ∀ (l : List String) (s : SubState ρ) (k : String),
      alookup s.subscriptions k = none →
      alookup (l.foldl (fun st sid => (unsubscribe st sid).2) s).subscriptions k =
        none := by
  intro l
  induction l with
  | nil => intro s k h; exact h
  | cons c rest ih =>
    intro s k h
    rw [List.foldl_cons]
    apply ih
    rw [unsubscribe_subscriptions_lookup]
    by_cases hk : k = c
    · simp [hk]
    · simp [hk, h]

theorem foldUnsub_subscriptions_none {ρ : Type} :
    ∀ (l : List String) (s : SubState ρ) (k : String), k ∈ l →
      alookup (l.foldl (fun st sid => (unsubscribe st sid).2) s).subscriptions k =
        none := by
  intro l
  induction l with
  | nil => intro s k h; cases h
  | cons c rest ih =>
    intro s k h
    rw [List.foldl_cons]
    by_cases hk : k = c
    · subst hk
      exact foldUnsub_none_preserved rest _ k (unsub_kills s k)
    · rcases List.mem_cons.mp h with h' | h'
      · exact absurd h' hk
      · exact ih _ k h'

theorem foldUnsub_sets_no_new {ρ : Type} :
    ∀ (l : List String) (s : SubState ρ) (x : String),
      (∀ e ∈ s.subscriptionConnections, x ∉ e.2) →
      ∀ e ∈ (l.foldl (fun st sid => (unsubscribe st sid).2) s).subscriptionConnections,
        x ∉ e.2 := by
  intro l
  induction l with
  | nil => intro s x h; exact h
  | cons c rest ih =>
    intro s x h
    rw [List.foldl_cons]
    exact ih _ x (unsubscribe_sets_no_new s c x h)

theorem foldUnsub_sets_absent {ρ : Type} :
    ∀ (l : List String) (s : SubState ρ) (k : String), k ∈ l →
      (alookup s.subscriptions k).isSome = true →
      ∀ e ∈ (l.foldl (fun st sid => (unsubscribe st sid).2) s).subscriptionConnections,
        k ∉ e.2 := by
  intro l
  induction l with
  | nil => intro s k h; cases h
  | cons c rest ih =>
    intro s k h hlive
    rw [List.foldl_cons]
    by_cases hk : k = c
    · subst hk
      obtain ⟨r, hr⟩ := Option.isSome_iff_exists.mp hlive
      exact foldUnsub_sets_no_new rest _ k (unsubscribe_sets_absent s k r hr)
    · rcases List.mem_cons.mp h with h' | h'
      · exact absurd h' hk
      · apply ih _ k h'
        rw [unsubscribe_subscriptions_lookup, if_neg hk]
        exact hlive

theorem closeConnection_eq {ρ : Type} (s : SubState ρ) (cid : String)
    (conn : SubConnection) (hc : alookup s.connections cid = some conn) :
    closeConnection s cid = (true, closeBody s cid conn) := by
  unfold closeConnection closeBody closePrep
  rw [hc]

theorem closeConnection_fst {ρ : Type} (s : SubState ρ) (cid : String) :
    (closeConnection s cid).1 = (alookup s.connections cid).isSome := by
  unfold closeConnection
  cases alookup s.connections cid <;> rfl

theorem closeBody_subscriptions {ρ : Type} (s : SubState ρ) (cid : String)
    (conn : SubConnection) :
    (closeBody s cid conn).subscriptions =
      (conn.subscriptions.foldl (fun st sid => (unsubscribe st sid).2)
        (closePrep s cid conn)).subscriptions :=
  rfl

theorem closeBody_sets {ρ : Type} (s : SubState ρ) (cid : String)
    (conn : SubConnection) :
    (closeBody s cid conn).subscriptionConnections =
      (conn.subscriptions.foldl (fun st sid => (unsubscribe st sid).2)
        (closePrep s cid conn)).subscriptionConnections :=
  rfl

theorem closeBody_connections_lookup_self {ρ : Type} (s : SubState ρ) (cid : String)
    (conn : SubConnection) :
    alookup (closeBody s cid conn).connections cid = none :=
  alookup_aerase_self _ _

/-- C5: closing a known connection returns true, removes the connection
record, and cascades `unsubscribe` over every subscription id the
connection holds: in any state where those ids are live, they are all
gone from the subscription table afterwards, absent from every topic's
subscriber set, a later `unsubscribe` on any of them returns false, and a
second `closeConnection` on the same id returns false; `closeConnection`
on an unknown (or already closed and hence removed) id returns false and
leaves the state unchanged. -/
theorem c5_close_connection_cascades :
    (∀ (ρ : Type) (s : SubState ρ) (cid : String) (conn : SubConnection),
        alookup s.connections cid = some conn →
        (∀ sid ∈ conn.subscriptions, (alookup s.subscriptions sid).isSome = true) →
        (closeConnection s cid).1 = true ∧
        alookup (closeConnection s cid).2.connections cid = none ∧
        (∀ sid ∈ conn.subscriptions,
          alookup (closeConnection s cid).2.subscriptions sid = none) ∧
        (∀ sid ∈ conn.subscriptions,
          ∀ e ∈ (closeConnection s cid).2.subscriptionConnections, sid ∉ e.2) ∧
        (∀ sid ∈ conn.subscriptions,
          (unsubscribe (closeConnection s cid).2 sid).1 = false) ∧
        (closeConnection (closeConnection s cid).2 cid).1 = false) ∧
    (∀ (ρ : Type) (s : SubState ρ) (cid : String),
        alookup s.connections cid = none → closeConnection s cid = (false, s)) := by
  constructor
  · intro ρ s cid conn hc hlive
    have h2eq : (closeConnection s cid).2 = closeBody s cid conn := by
      rw [closeConnection_eq s cid conn hc]
    have hsubs : ∀ sid ∈ conn.subscriptions,
        alookup (closeConnection s cid).2.subscriptions sid = none := by
      intro sid hm
      rw [h2eq, closeBody_subscriptions]
      exact foldUnsub_subscriptions_none conn.subscriptions _ sid hm
    refine ⟨?_, ?_, hsubs, ?_, ?_, ?_⟩
    · rw [closeConnection_fst, hc]
      rfl
    · rw [h2eq]
      exact closeBody_connections_lookup_self s cid conn
    · intro sid hm
      rw [h2eq, closeBody_sets]
      exact foldUnsub_sets_absent conn.subscriptions _ sid hm (hlive sid hm)
    · intro sid hm
      rw [unsubscribe_fst, hsubs sid hm]
      rfl
    · rw [closeConnection_fst, h2eq,
          closeBody_connections_lookup_self s cid conn]
      rfl
  · intro ρ s cid h
    unfold closeConnection
    rw [h]

theorem c5_witness :
    ((closeConnection c5State "c1").1 = true ∧
     alookup (closeConnection c5State "c1").2.connections "c1" = none ∧
     alookup (closeConnection c5State "c1").2.subscriptions "s1" = none ∧
     (unsubscribe (closeConnection c5State "c1").2 "s2").1 = false ∧
     (closeConnection (closeConnection c5State "c1").2 "c1").1 = false) := by
  have h := c5_close_connection_cascades.1 Unit c5State "c1"
    (mkConn "c1" true ["s1", "s2"]) rfl (by decide)
  refine ⟨h.1, h.2.1, ?_, ?_, h.2.2.2.2.2⟩
  · exact h.2.2.1 "s1" (by decide)
  · exact h.2.2.2.2.1 "s2" (by decide)

/-- C2 (amended): after any finite sequence of subscribe/unsubscribe
calls in which every subscribe is given a fresh id, the
`totalSubscriptions` counter equals the number of live subscriptions and
the subscription keys stay duplicate-free; however, subscribe puts no
subscription id into any topic's subscriber set — starting from a state
whose topic sets are all empty they all stay empty (the topic index maps
topics to connection ids and is populated only by
`addSubscriptionToConnection`) — and no connection record is created or
modified, so live ids are not linked into any connection. -/
theorem c2_total_subscriptions_invariant {ρ : Type} :
    ∀ (ops : List (SubOp ρ)) (s : SubState ρ),
      freshRun s ops = true →
      (s.subscriptions.map Prod.fst).Nodup →
      s.stats.totalSubscriptions = (s.subscriptions.length : Int) →
      (∀ e ∈ s.subscriptionConnections, e.2 = ([] : List String)) →
      ((runOps s ops).stats.totalSubscriptions =
          ((runOps s ops).subscriptions.length : Int) ∧
       ((runOps s ops).subscriptions.map Prod.fst).Nodup ∧
       (∀ e ∈ (runOps s ops).subscriptionConnections, e.2 = ([] : List String)) ∧
       (runOps s ops).connections = s.connections) := by
  intro ops
  induction ops with
  | nil =>
    intro s _ hnd hcount hempty
    exact ⟨hcount, hnd, hempty, rfl⟩
  | cons op rest ih =>
    intro s hfresh hnd hcount hempty
    have hrun : runOps s (op :: rest) = runOps (applyOp s op) rest := rfl
    rw [hrun]
    cases op with
    | sub sid name r =>
      unfold freshRun at hfresh
      simp only [Bool.and_eq_true] at hfresh
      obtain ⟨hfo, hfr⟩ := hfresh
      have hfo' : alookup s.subscriptions sid = none :=
        Option.isNone_iff_eq_none.mp hfo
      have hnotmem : sid ∉ s.subscriptions.map Prod.fst :=
        (alookup_eq_none_iff _ _).mp hfo'
      have hsubs : (applyOp s (SubOp.sub sid name r)).subscriptions =
          s.subscriptions ++ [(sid, r)] := by
        show aset s.subscriptions sid r = _
        exact aset_fresh _ _ _ hfo'
      have hstats : (applyOp s (SubOp.sub sid name r)).stats.totalSubscriptions =
          s.stats.totalSubscriptions + 1 := rfl
      have hconn : (applyOp s (SubOp.sub sid name r)).connections =
          s.connections := rfl
      have hnd' : ((applyOp s (SubOp.sub sid name r)).subscriptions.map
          Prod.fst).Nodup := by
        rw [hsubs]
        simp [List.nodup_append, hnd, hnotmem]
      have hcount' : (applyOp s (SubOp.sub sid name r)).stats.totalSubscriptions =
          ((applyOp s (SubOp.sub sid name r)).subscriptions.length : Int) := by
        rw [hstats, hsubs, hcount]
        simp [List.length_append]
      have hempty' : ∀ e ∈ (applyOp s (SubOp.sub sid name r)).subscriptionConnections,
          e.2 = ([] : List String) := by
        intro e he
        cases hn : alookup s.subscriptionConnections name with
        | some v =>
          have hte : (subscribe s sid name r).2.subscriptionConnections =
              s.subscriptionConnections := by
            unfold subscribe
            rw [hn]
          rw [show (applyOp s (SubOp.sub sid name r)).subscriptionConnections =
                (subscribe s sid name r).2.subscriptionConnections from rfl,
              hte] at he
          exact hempty e he
        | none =>
          have hte : (subscribe s sid name r).2.subscriptionConnections =
              aset s.subscriptionConnections name [] := by
            unfold subscribe
            rw [hn]
          rw [show (applyOp s (SubOp.sub sid name r)).subscriptionConnections =
                (subscribe s sid name r).2.subscriptionConnections from rfl,
              hte] at he
          rcases mem_aset _ _ _ e he with h' | h'
          · exact hempty e h'
          · rw [h']
      obtain ⟨i1, i2, i3, i4⟩ := ih (applyOp s (SubOp.sub sid name r)) hfr hnd'
        hcount' hempty'
      exact ⟨i1, i2, i3, i4.trans hconn⟩
    | unsub sid =>
      unfold freshRun at hfresh
      simp only [Bool.and_eq_true, true_and] at hfresh
      have hfr : freshRun (applyOp s (SubOp.unsub sid)) rest = true := hfresh
      cases hn : alookup s.subscriptions sid with
      | none =>
        have hid : applyOp s (SubOp.unsub sid) = s := by
          show (unsubscribe s sid).2 = s
          rw [unsubscribe_of_none s sid hn]
        rw [hid] at hfr ⊢
        exact ih s hfr hnd hcount hempty
      | some r =>
        have hsubs : (applyOp s (SubOp.unsub sid)).subscriptions =
            aerase s.subscriptions sid := by
          show (unsubscribe s sid).2.subscriptions = _
          unfold unsubscribe
          rw [hn]
        have hstats : (applyOp s (SubOp.unsub sid)).stats.totalSubscriptions =
            s.stats.totalSubscriptions - 1 := by
          show (unsubscribe s sid).2.stats.totalSubscriptions = _
          unfold unsubscribe
          rw [hn]
        have hconn : (applyOp s (SubOp.unsub sid)).connections = s.connections :=
          unsubscribe_connections s sid
        have hlen := length_aerase s.subscriptions sid r hnd hn
        have hnd' : ((applyOp s (SubOp.unsub sid)).subscriptions.map
            Prod.fst).Nodup := by
          rw [hsubs, aerase_map_fst]
          exact hnd.filter _
        have hcount' : (applyOp s (SubOp.unsub sid)).stats.totalSubscriptions =
            ((applyOp s (SubOp.unsub sid)).subscriptions.length : Int) := by
          rw [hstats, hsubs]
          omega
        have hempty' : ∀ e ∈ (applyOp s (SubOp.unsub sid)).subscriptionConnections,
            e.2 = ([] : List String) := by
          intro e he
          have hte : (unsubscribe s sid).2.subscriptionConnections =
              s.subscriptionConnections.map (fun e => (e.1, delS e.2 sid)) := by
            unfold unsubscribe
            rw [hn]
          rw [show (applyOp s (SubOp.unsub sid)).subscriptionConnections =
                (unsubscribe s sid).2.subscriptionConnections from rfl,
              hte] at he
          obtain ⟨e', he', rfl⟩ := List.mem_map.mp he
          rw [hempty e' he']
          rfl
        obtain ⟨i1, i2, i3, i4⟩ := ih (applyOp s (SubOp.unsub sid)) hfr hnd'
          hcount' hempty'
        exact ⟨i1, i2, i3, i4.trans hconn⟩

theorem c2_witness :
    (freshRun (initState Unit 0) [SubOp.sub "s1" "orders" (), SubOp.unsub "s1"] =
       true ∧
     (runOps (initState Unit 0)
        [SubOp.sub "s1" "orders" (), SubOp.unsub "s1"]).stats.totalSubscriptions =
       ((runOps (initState Unit 0)
          [SubOp.sub "s1" "orders" (), SubOp.unsub "s1"]).subscriptions.length :
         Int)) :=
  ⟨by decide,
   (c2_total_subscriptions_invariant
      [SubOp.sub "s1" "orders" (), SubOp.unsub "s1"] (initState Unit 0)
      (by decide) (by decide) (by decide) (by decide)).1⟩

/-- C2 counterexample: after a single subscribe call from the initial
state the subscription `s1` is live and counted, but its id appears in no
topic's subscriber set (the only topic entry, `orders`, is the empty set)
and no connection holds it (there are no connection records at all) —
contradicting the claim that every live subscription id appears in
exactly one topic's subscriber set and in its owner connection's set. -/
theorem c2_counterexample :
    alookup (runOps (initState Unit 0)
        [SubOp.sub "s1" "orders" ()]).subscriptions "s1" = some () ∧
    (runOps (initState Unit 0)
        [SubOp.sub "s1" "orders" ()]).stats.totalSubscriptions = 1 ∧
    (runOps (initState Unit 0)
        [SubOp.sub "s1" "orders" ()]).subscriptionConnections =
      [("orders", [])] ∧
    (runOps (initState Unit 0) [SubOp.sub "s1" "orders" ()]).connections = [] := by
  refine ⟨rfl, by decide, rfl, rfl⟩

theorem charVal36_digitChar36 (d : Nat) (hd : d < 36) :
    charVal36 (digitChar36 d) = d := by
  interval_cases d <;> rfl

theorem unBase36_toBase36 (n : Nat) : unBase36 (toBase36 n).data = n := by
  by_cases h : n = 0
  · subst h
    decide
  · unfold toBase36
    rw [if_neg h]
    show unBase36 (((Nat.digits 36 n).map digitChar36).reverse) = n
    unfold unBase36
    rw [List.reverse_reverse, List.map_map]
    have hmap : (Nat.digits 36 n).map (charVal36 ∘ digitChar36) = Nat.digits 36 n := by
      have hcg : ∀ d ∈ Nat.digits 36 n, (charVal36 ∘ digitChar36) d = id d :=
        fun d hdm =>
          charVal36_digitChar36 d (Nat.digits_lt_base (by norm_num) hdm)
      rw [List.map_congr_left hcg, List.map_id]
    rw [hmap]
    exact Nat.ofDigits_digits 36 n

theorem toBase36_inj (a b : Nat) (h : toBase36 a = toBase36 b) : a = b := by
  have hu := congrArg (fun s => unBase36 s.data) h
  simpa [unBase36_toBase36] using hu

/-- C9 (amended): the id scheme `randomPart ++ time.toString(36)` yields
distinct ids for two subscribe calls exactly when their generator inputs
differ, provided the random parts have equal length: under that proviso,
differing random parts or differing timestamps give distinct ids.
Uniqueness across the process lifetime is NOT guaranteed by the scheme:
when both calls read the same millisecond clock value and draw the same
random string, the ids coincide (see the counterexample). -/
theorem c9_generate_id_distinct (r₁ r₂ : String) (t₁ t₂ : Nat)
    (hlen : r₁.length = r₂.length) (hne : ¬(r₁ = r₂ ∧ t₁ = t₂)) :
    generateId r₁ t₁ ≠ generateId r₂ t₂ := by
  intro h
  apply hne
  have hdata : r₁.data ++ (toBase36 t₁).data = r₂.data ++ (toBase36 t₂).data := by
    have hd := congrArg String.data h
    simpa [generateId, String.data_append] using hd
  have hlen' : r₁.data.length = r₂.data.length := hlen
  obtain ⟨h1, h2⟩ := List.append_inj hdata hlen'
  have hr : r₁ = r₂ := by
    cases r₁
    cases r₂
    exact congrArg String.mk h1
  have hb : toBase36 t₁ = toBase36 t₂ := by
    cases hx : toBase36 t₁
    cases hy : toBase36 t₂
    rw [hx, hy] at h2
    exact congrArg String.mk h2
  exact ⟨hr, toBase36_inj t₁ t₂ hb⟩

theorem c9_witness :
    (("ab" : String).length = ("cd" : String).length ∧
     ¬(("ab" : String) = "cd" ∧ (1 : Nat) = 1) ∧
     generateId "ab" 1 ≠ generateId "cd" 1) :=
  ⟨rfl, by decide, c9_generate_id_distinct "ab" "cd" 1 1 rfl (by decide)⟩

/-- C9 counterexample: two distinct consecutive subscribe calls whose id
generator reads the same random draw and the same millisecond timestamp —
a combination the scheme admits, having neither a monotonic counter nor
any other per-call state — return the same subscription id, contradicting
the claim that ids are unique across the process lifetime for every
admitted choice of time and randomness inputs. -/
theorem c9_counterexample :
    (subscribe (initState Unit 0) (generateId "abc" 100) "orders" ()).1 =
      (subscribe
        (subscribe (initState Unit 0) (generateId "abc" 100) "orders" ()).2
        (generateId "abc" 100) "orders" ()).1 :=
  rfl

end SubscriptionSpec
